import Mathlib

/-!
Shallow embedding of `pyexchange/kucoin.py` (the KuCoin exchange adapter of
the pyexchange repository): the value types `Order` and `Trade`, and the
`KucoinApi` operations the specification talks about.

The external `kucoin.client.Client` library is modelled as a record of
response functions; each adapter operation takes the client explicitly and
returns its result together with the list of remote calls it performed, so
that statements of the form "no remote call is made" are expressible.
Remote failures (Python exceptions raised by the client) are modelled as
`Except RemoteError` results; adapter-level Python exceptions
(`AssertionError`, `KeyError`, `IndexError`, propagated remote errors) are
modelled as `Except AdapterError`.
-/

/-- Fixed-point decimal with 18 decimal places, modelling `pymaker.Wad`
(external dependency of this repository): the numerator of the fraction
`value / 10^18`. -/
structure Wad where
  value : Int
deriving DecidableEq, Repr

/-- Wad multiplication, modelling `pymaker.Wad.__mul__`: the exact product
is divided by `10^18` and truncated toward zero (Python `int(...)` on the
exact fraction). -/
def Wad.mul (a b : Wad) : Wad :=
  ⟨Int.tdiv (a.value * b.value) (10 ^ 18)⟩

/-- Conversion of a raw decimal payload number into a `Wad`, modelling
`pymaker.Wad.from_number`: the number times `10^18`, truncated. Payload
numbers are modelled as exact rationals. -/
def Wad.fromNumber (q : Rat) : Wad :=
  ⟨⌊q * 10 ^ 18⌋⟩

/-- The side constant `kucoin.client.Client.SIDE_SELL` of the external
client library. -/
def Client.SIDE_SELL : String := "SELL"

/-- The side constant `kucoin.client.Client.SIDE_BUY` of the external
client library. -/
def Client.SIDE_BUY : String := "BUY"

/-- The `Order` value type of `pyexchange/kucoin.py`. The `order_id` field
receives the exchange order oid (element 5 of an active-order payload
list). -/
structure Order where
  order_id : String
  pair : String
  is_sell : Bool
  price : Wad
  amount : Wad
deriving DecidableEq, Repr

/-- `Order.sell_to_buy_price`: returns `self.price`. -/
def Order.sell_to_buy_price (o : Order) : Wad :=
  o.price

/-- `Order.buy_to_sell_price`: returns `self.price`. -/
def Order.buy_to_sell_price (o : Order) : Wad :=
  o.price

/-- `Order.remaining_buy_amount`:
`self.amount*self.price if self.is_sell else self.amount`. -/
def Order.remaining_buy_amount (o : Order) : Wad :=
  if o.is_sell then Wad.mul o.amount o.price else o.amount

/-- `Order.remaining_sell_amount`:
`self.amount if self.is_sell else self.amount*self.price`. -/
def Order.remaining_sell_amount (o : Order) : Wad :=
  if o.is_sell then o.amount else Wad.mul o.amount o.price

/-- A positional active-order payload entry as consumed by
`Order.from_list` (`item[2]` price, `item[3]` amount, `item[5]` order
oid); the remaining positions are carried for shape fidelity but unused. -/
structure ActiveOrderItem where
  f0 : Int
  f1 : String
  f2 : Rat
  f3 : Rat
  f4 : Rat
  f5 : String
deriving DecidableEq, Repr

/-- `Order.from_list(item, pair, sell)`: builds an `Order` from a
positional payload entry. -/
def Order.from_list (item : ActiveOrderItem) (pair : String) (sell : Bool) : Order :=
  { order_id := item.f5
    pair := pair
    is_sell := sell
    price := Wad.fromNumber item.f2
    amount := Wad.fromNumber item.f3 }

/-- The `Trade` value type of `pyexchange/kucoin.py`. Equality in the
source compares all fields (value semantics), matching structural
equality here. -/
structure Trade where
  trade_id : Option Int
  order_id : Option String
  timestamp : Int
  pair : String
  is_sell : Bool
  price : Wad
  amount : Wad
deriving DecidableEq, Repr

/-- A keyed trade record as consumed by `Trade.from_dict`
(`get_symbol_dealt_orders` payload entry): fields `id`, `orderOid`,
`createdAt` (millisecond timestamp), `direction`, `dealPrice`, `amount`. -/
structure DealtTradeRecord where
  id : Int
  orderOid : String
  createdAt : Int
  direction : String
  dealPrice : Rat
  amount : Rat
deriving DecidableEq, Repr

/-- A positional trade record as consumed by `Trade.from_list`, e.g.
`[1544564526000, 'SELL', 25.0005, 0.0614088, 1.5352507, '...']`:
millisecond timestamp, side string, price, amount, volume, order oid. -/
structure RecentTradeItem where
  f0 : Int
  f1 : String
  f2 : Rat
  f3 : Rat
  f4 : Rat
  f5 : String
deriving DecidableEq, Repr

/-- `Trade.from_dict(pair, trade)`: keyed mapping path. The timestamp is
`int(float(trade['createdAt'])) // 1000`, i.e. floor division of the
millisecond timestamp by 1000. -/
def Trade.from_dict (pair : String) (trade : DealtTradeRecord) : Trade :=
  { trade_id := some trade.id
    order_id := some trade.orderOid
    timestamp := Int.fdiv trade.createdAt 1000
    pair := pair
    is_sell := trade.direction == "SELL"
    price := Wad.fromNumber trade.dealPrice
    amount := Wad.fromNumber trade.amount }

/-- `Trade.from_list(pair, trade)`: positional mapping path; the trade
identifier is set to `None`. -/
def Trade.from_list (pair : String) (trade : RecentTradeItem) : Trade :=
  { trade_id := none
    order_id := some trade.f5
    timestamp := Int.fdiv trade.f0 1000
    pair := pair
    is_sell := trade.f1 == "SELL"
    price := Wad.fromNumber trade.f2
    amount := Wad.fromNumber trade.f3 }

/-- Splitting a character list on the dash character, by structural
recursion; `splitDashChars s.data` models Python `s.split("-")` (e.g.
`"ETH-DAI"` becomes `["ETH", "DAI"]`, the empty string becomes `[""]`). -/
def splitDashChars : List Char → List (List Char)
  | [] => [[]]
  | c :: cs =>
    if c = '-' then [] :: splitDashChars cs
    else
      match splitDashChars cs with
      | [] => [[c]]
      | r :: rs => (c :: r) :: rs

/-- Python `pair.split("-")` as executed in `place_order`. -/
def pySplitOnDash (s : String) : List String :=
  (splitDashChars s.data).map (fun cs => String.mk cs)

/-- The string produced by Python `"%.<decimals>f" % float(x)` in
`place_order`, modelled as the pair of the precision applied and the
number being formatted. -/
structure Formatted where
  decimals : Nat
  number : Wad
deriving DecidableEq, Repr

/-- A remote failure: any exception raised by the external client. -/
inductive RemoteError where
  | failure (msg : String)
deriving DecidableEq, Repr

/-- Python exceptions escaping an adapter method: `assert` failure, dict
`KeyError` (carrying the missing key), list `IndexError`, or a propagated
remote failure. -/
inductive AdapterError where
  | assertionError
  | keyError (key : String)
  | indexError
  | remote (e : RemoteError)
deriving DecidableEq, Repr

/-- The response of `client.get_active_orders(pair)`: a mapping holding a
list under `SIDE_SELL` and a list under `SIDE_BUY`. -/
structure ActiveOrdersResponse where
  sell : List ActiveOrderItem
  buy : List ActiveOrderItem
deriving DecidableEq, Repr

/-- The response of `client.create_order`: a mapping with the
exchange-assigned `orderOid`. -/
structure CreateOrderResult where
  orderOid : String
deriving DecidableEq, Repr

/-- One remote invocation of the external client, recording the method and
the exact arguments passed. -/
inductive ClientCall where
  | getActiveOrders (pair : String)
  | createOrder (pair : String) (side : String) (price : Formatted) (amount : Formatted)
  | cancelOrder (orderId : String) (side : String) (pair : String)
  | getRecentOrders (pair : String) (limit : Nat)
deriving DecidableEq, Repr

/-- The external `kucoin.client.Client`, modelled as a record of response
functions (each returning either a value or a raised exception). -/
structure Client where
  get_active_orders : String → Except RemoteError ActiveOrdersResponse
  create_order : String → String → Formatted → Formatted → Except RemoteError CreateOrderResult
  cancel_order : String → String → String → Except RemoteError Unit
  get_recent_orders : String → Nat → Except RemoteError (List RecentTradeItem)

/-- An argument passed to the external `Client` constructor: a string or a
number. -/
inductive CtorArg where
  | str (s : String)
  | num (q : Rat)
deriving DecidableEq, Repr

/-- The argument list the adapter constructor passes to the external
client constructor: `KucoinApi.__init__` executes
`self.client = Client(api_key, secret_key)`. -/
def KucoinApi.clientCtorArgs (api_server api_key secret_key : String)
    (timeout : Rat) : List CtorArg :=
  [CtorArg.str api_key, CtorArg.str secret_key]

/-- The adapter state built by `KucoinApi.__init__`: the four parameters
are stored on the instance, and the client handle is built from the API
key and the secret key only. -/
structure KucoinApiState where
  api_server : String
  api_key : String
  secret_key : String
  timeout : Rat
  clientArgs : List CtorArg
deriving DecidableEq, Repr

/-- `KucoinApi.__init__(api_server, api_key, secret_key, timeout)`. -/
def KucoinApi.mk_state (api_server api_key secret_key : String)
    (timeout : Rat) : KucoinApiState :=
  { api_server := api_server
    api_key := api_key
    secret_key := secret_key
    timeout := timeout
    clientArgs := KucoinApi.clientCtorArgs api_server api_key secret_key timeout }

/-- `KucoinApi._get_precision(coin)`: the precision format dictionary;
lookup of a missing key raises `KeyError`, modelled by `none`. -/
def KucoinApi.get_precision (coin : String) : Option Nat :=
  if coin = "ETH" then some 7
  else if coin = "USDT" then some 6
  else if coin = "MKR" then some 4
  else if coin = "BTC" then some 7
  else if coin = "DAI" then some 4
  else none

/-- `KucoinApi.get_orders(pair)`: fetches the active orders and returns
the sell-side entries mapped with `sell=True` followed by the buy-side
entries mapped with `sell=False`. The only argument check in the source is
`assert(isinstance(pair, str))`, which the typing of the embedding makes
vacuous. -/
def KucoinApi.get_orders (client : Client) (pair : String) :
    Except AdapterError (List Order) × List ClientCall :=
  match client.get_active_orders pair with
  | Except.error e => (Except.error (AdapterError.remote e), [ClientCall.getActiveOrders pair])
  | Except.ok orders =>
      (Except.ok ((orders.sell.map (fun item => Order.from_list item pair true)) ++
                  (orders.buy.map (fun item => Order.from_list item pair false))),
       [ClientCall.getActiveOrders pair])

/-- `KucoinApi.place_order(pair, is_sell, price, amount)`: splits the pair
on `-`, formats the price with the quote asset's precision and the amount
with the base asset's precision (the price line runs first, so the quote
lookup happens before the base lookup), then submits the order and returns
the exchange-assigned oid. -/
def KucoinApi.place_order (client : Client) (pair : String) (is_sell : Bool)
    (price amount : Wad) : Except AdapterError String × List ClientCall :=
  let side := if is_sell then Client.SIDE_SELL else Client.SIDE_BUY
  let coins := pySplitOnDash pair
  match coins[1]? with
  | none => (Except.error AdapterError.indexError, [])
  | some quote =>
    match KucoinApi.get_precision quote with
    | none => (Except.error (AdapterError.keyError quote), [])
    | some pq =>
      match coins[0]? with
      | none => (Except.error AdapterError.indexError, [])
      | some base =>
        match KucoinApi.get_precision base with
        | none => (Except.error (AdapterError.keyError base), [])
        | some pb =>
          let fprice : Formatted := ⟨pq, price⟩
          let famount : Formatted := ⟨pb, amount⟩
          match client.create_order pair side fprice famount with
          | Except.error e =>
              (Except.error (AdapterError.remote e),
               [ClientCall.createOrder pair side fprice famount])
          | Except.ok result =>
              (Except.ok result.orderOid,
               [ClientCall.createOrder pair side fprice famount])

/-- `KucoinApi.cancel_order(order_id, is_sell, pair)`: forwards the
cancellation to the client inside `try/except`; returns `True` on
success and `False` on any raised exception. -/
def KucoinApi.cancel_order (client : Client) (order_id : String)
    (is_sell : Bool) (pair : String) : Bool × List ClientCall :=
  let side := if is_sell then Client.SIDE_SELL else Client.SIDE_BUY
  match client.cancel_order order_id side pair with
  | Except.ok _ => (true, [ClientCall.cancelOrder order_id side pair])
  | Except.error _ => (false, [ClientCall.cancelOrder order_id side pair])

/-- `KucoinApi.get_all_trades(pair, page_number=1)`: asserts
`page_number == 1` before any remote call, then fetches the 50 most
recent public trades and maps each entry via the positional path. -/
def KucoinApi.get_all_trades (client : Client) (pair : String)
    (page_number : Int) : Except AdapterError (List Trade) × List ClientCall :=
  if page_number = 1 then
    match client.get_recent_orders pair 50 with
    | Except.error e =>
        (Except.error (AdapterError.remote e), [ClientCall.getRecentOrders pair 50])
    | Except.ok result =>
        (Except.ok (result.map (Trade.from_list pair)), [ClientCall.getRecentOrders pair 50])
  else
    (Except.error AdapterError.assertionError, [])

/-- A concrete client whose every remote call raises. -/
def failingClient : Client :=
  { get_active_orders := fun _ => Except.error (RemoteError.failure "connection refused")
    create_order := fun _ _ _ _ => Except.error (RemoteError.failure "connection refused")
    cancel_order := fun _ _ _ => Except.error (RemoteError.failure "connection refused")
    get_recent_orders := fun _ _ => Except.error (RemoteError.failure "connection refused") }

/-- A concrete client whose every remote call succeeds with an empty or
minimal response. -/
def okClient : Client :=
  { get_active_orders := fun _ => Except.ok ⟨[], []⟩
    create_order := fun _ _ _ _ => Except.ok ⟨"5c102f2d335e7e08134edd77"⟩
    cancel_order := fun _ _ _ => Except.ok ()
    get_recent_orders := fun _ _ => Except.ok [] }

/-- A concrete client whose active-orders response has 2 sell entries and
3 buy entries. -/
def twoThreeClient : Client :=
  { get_active_orders := fun _ => Except.ok
      ⟨[⟨1544564526000, "SELL", 25, 3, 1, "s1"⟩, ⟨1544564527000, "SELL", 26, 4, 1, "s2"⟩],
       [⟨1544564528000, "BUY", 24, 5, 1, "b1"⟩, ⟨1544564529000, "BUY", 23, 6, 1, "b2"⟩,
        ⟨1544564530000, "BUY", 22, 7, 1, "b3"⟩]⟩
    create_order := fun _ _ _ _ => Except.ok ⟨"5c102f2d335e7e08134edd77"⟩
    cancel_order := fun _ _ _ => Except.ok ()
    get_recent_orders := fun _ _ => Except.ok [] }

/-- C3: for every `Order`, if its side is sell then `remaining_buy_amount`
equals amount times price and `remaining_sell_amount` equals amount, and
if its side is buy then `remaining_buy_amount` equals amount and
`remaining_sell_amount` equals amount times price. -/
theorem C3_order_remaining_amounts (o : Order) :
    (o.is_sell = true →
      o.remaining_buy_amount = Wad.mul o.amount o.price ∧
      o.remaining_sell_amount = o.amount) ∧
    (o.is_sell = false →
      o.remaining_buy_amount = o.amount ∧
      o.remaining_sell_amount = Wad.mul o.amount o.price) := by
  constructor <;> intro h <;>
    simp [Order.remaining_buy_amount, Order.remaining_sell_amount, h]

theorem C3_order_remaining_amounts_witness :
    ((Order.mk "o1" "ETH-DAI" true ⟨2⟩ ⟨3⟩).remaining_buy_amount =
        Wad.mul ⟨3⟩ ⟨2⟩ ∧
     (Order.mk "o1" "ETH-DAI" true ⟨2⟩ ⟨3⟩).remaining_sell_amount = ⟨3⟩) ∧
    ((Order.mk "o1" "ETH-DAI" false ⟨2⟩ ⟨3⟩).remaining_buy_amount = ⟨3⟩ ∧
     (Order.mk "o1" "ETH-DAI" false ⟨2⟩ ⟨3⟩).remaining_sell_amount =
        Wad.mul ⟨3⟩ ⟨2⟩) :=
  ⟨(C3_order_remaining_amounts (Order.mk "o1" "ETH-DAI" true ⟨2⟩ ⟨3⟩)).1 rfl,
   (C3_order_remaining_amounts (Order.mk "o1" "ETH-DAI" false ⟨2⟩ ⟨3⟩)).2 rfl⟩

/-- C10: for every `Order`, regardless of its side, both derived prices
`sell_to_buy_price` and `buy_to_sell_price` equal the order's `price`
field unchanged. -/
theorem C10_derived_prices_passthrough (o : Order) :
    o.sell_to_buy_price = o.price ∧ o.buy_to_sell_price = o.price :=
  ⟨rfl, rfl⟩

/-- C4: mapping a keyed trade record and a positional trade record that
carry the same underlying values (order identifier, millisecond
timestamp, side string, price, amount) yields `Trade` objects equal in
every field except the trade identifier, which is `none` in the
positional path. -/
theorem C4_trade_mapping_equivalence (pair : String) (d : DealtTradeRecord)
    (l : RecentTradeItem)
    (hoid : d.orderOid = l.f5) (hts : d.createdAt = l.f0)
    (hside : d.direction = l.f1) (hprice : d.dealPrice = l.f2)
    (hamount : d.amount = l.f3) :
    (Trade.from_dict pair d).order_id = (Trade.from_list pair l).order_id ∧
    (Trade.from_dict pair d).timestamp = (Trade.from_list pair l).timestamp ∧
    (Trade.from_dict pair d).pair = (Trade.from_list pair l).pair ∧
    (Trade.from_dict pair d).is_sell = (Trade.from_list pair l).is_sell ∧
    (Trade.from_dict pair d).price = (Trade.from_list pair l).price ∧
    (Trade.from_dict pair d).amount = (Trade.from_list pair l).amount ∧
    (Trade.from_list pair l).trade_id = none := by
  simp [Trade.from_dict, Trade.from_list, hoid, hts, hside, hprice, hamount]

theorem C4_trade_mapping_equivalence_witness :
    (Trade.from_dict "ETH-DAI" ⟨7, "o5", 1544564526000, "SELL", 25, 3⟩).order_id =
      (Trade.from_list "ETH-DAI" ⟨1544564526000, "SELL", 25, 3, 1, "o5"⟩).order_id ∧
    (Trade.from_dict "ETH-DAI" ⟨7, "o5", 1544564526000, "SELL", 25, 3⟩).timestamp =
      (Trade.from_list "ETH-DAI" ⟨1544564526000, "SELL", 25, 3, 1, "o5"⟩).timestamp ∧
    (Trade.from_dict "ETH-DAI" ⟨7, "o5", 1544564526000, "SELL", 25, 3⟩).pair =
      (Trade.from_list "ETH-DAI" ⟨1544564526000, "SELL", 25, 3, 1, "o5"⟩).pair ∧
    (Trade.from_dict "ETH-DAI" ⟨7, "o5", 1544564526000, "SELL", 25, 3⟩).is_sell =
      (Trade.from_list "ETH-DAI" ⟨1544564526000, "SELL", 25, 3, 1, "o5"⟩).is_sell ∧
    (Trade.from_dict "ETH-DAI" ⟨7, "o5", 1544564526000, "SELL", 25, 3⟩).price =
      (Trade.from_list "ETH-DAI" ⟨1544564526000, "SELL", 25, 3, 1, "o5"⟩).price ∧
    (Trade.from_dict "ETH-DAI" ⟨7, "o5", 1544564526000, "SELL", 25, 3⟩).amount =
      (Trade.from_list "ETH-DAI" ⟨1544564526000, "SELL", 25, 3, 1, "o5"⟩).amount ∧
    (Trade.from_list "ETH-DAI" ⟨1544564526000, "SELL", 25, 3, 1, "o5"⟩).trade_id = none :=
  C4_trade_mapping_equivalence "ETH-DAI"
    ⟨7, "o5", 1544564526000, "SELL", 25, 3⟩
    ⟨1544564526000, "SELL", 25, 3, 1, "o5"⟩ rfl rfl rfl rfl rfl

/-- C2: for every `cancel_order` call, if the external client's
cancellation call raises then `cancel_order` returns `false` (the error
is not propagated: the result type is a plain boolean), and if the
client's call succeeds then `cancel_order` returns `true`. -/
theorem C2_cancel_order_boolean (client : Client) (order_id : String)
    (is_sell : Bool) (pair : String) :
    (∀ e, client.cancel_order order_id
        (if is_sell then Client.SIDE_SELL else Client.SIDE_BUY) pair =
          Except.error e →
      (KucoinApi.cancel_order client order_id is_sell pair).1 = false) ∧
    (∀ u, client.cancel_order order_id
        (if is_sell then Client.SIDE_SELL else Client.SIDE_BUY) pair =
          Except.ok u →
      (KucoinApi.cancel_order client order_id is_sell pair).1 = true) := by
  constructor <;> intro x h <;> simp [KucoinApi.cancel_order, h]

theorem C2_cancel_order_boolean_witness :
    (KucoinApi.cancel_order failingClient "o1" true "ETH-DAI").1 = false ∧
    (KucoinApi.cancel_order okClient "o1" true "ETH-DAI").1 = true :=
  ⟨(C2_cancel_order_boolean failingClient "o1" true "ETH-DAI").1
      (RemoteError.failure "connection refused") rfl,
   (C2_cancel_order_boolean okClient "o1" true "ETH-DAI").2 () rfl⟩

/-- C5: for every `page_number` different from 1, `get_all_trades` fails
with the unsupported-operation error (the failed `assert`) and performs
no remote call. -/
theorem C5_get_all_trades_page_guard (client : Client) (pair : String)
    (page_number : Int) (h : page_number ≠ 1) :
    KucoinApi.get_all_trades client pair page_number =
      (Except.error AdapterError.assertionError, []) := by
  simp [KucoinApi.get_all_trades, h]

theorem C5_get_all_trades_page_guard_witness :
    (2 : Int) ≠ 1 ∧
    KucoinApi.get_all_trades okClient "ETH-DAI" 2 =
      (Except.error AdapterError.assertionError, []) :=
  ⟨by decide, C5_get_all_trades_page_guard okClient "ETH-DAI" 2 (by decide)⟩

/-- C1: for every `place_order` call whose pair splits into a base and a
quote asset both present in the precision table, the order submitted to
the external client carries the price formatted to the quote asset's
configured number of decimal places and the amount formatted to the base
asset's configured number of decimal places; the table assigns ETH 7,
USDT 6, MKR 4, BTC 7 and DAI 4 decimal places. -/
theorem C1_place_order_precision (client : Client) (pair base quote : String)
    (is_sell : Bool) (price amount : Wad) (pb pq : Nat)
    (hsplit : pySplitOnDash pair = [base, quote])
    (hq : KucoinApi.get_precision quote = some pq)
    (hb : KucoinApi.get_precision base = some pb) :
    (KucoinApi.place_order client pair is_sell price amount).2 =
      [ClientCall.createOrder pair
        (if is_sell then Client.SIDE_SELL else Client.SIDE_BUY)
        ⟨pq, price⟩ ⟨pb, amount⟩] ∧
    KucoinApi.get_precision "ETH" = some 7 ∧
    KucoinApi.get_precision "USDT" = some 6 ∧
    KucoinApi.get_precision "MKR" = some 4 ∧
    KucoinApi.get_precision "BTC" = some 7 ∧
    KucoinApi.get_precision "DAI" = some 4 := by
  refine ⟨?_, rfl, rfl, rfl, rfl, rfl⟩
  unfold KucoinApi.place_order
  rw [hsplit]
  simp only [List.getElem?_cons_zero, List.getElem?_cons_succ, hq, hb]
  cases hc : client.create_order pair
      (if is_sell then Client.SIDE_SELL else Client.SIDE_BUY)
      ⟨pq, price⟩ ⟨pb, amount⟩ <;> simp [hc]

theorem C1_place_order_precision_witness :
    pySplitOnDash "ETH-DAI" = ["ETH", "DAI"] ∧
    KucoinApi.get_precision "DAI" = some 4 ∧
    KucoinApi.get_precision "ETH" = some 7 ∧
    (KucoinApi.place_order okClient "ETH-DAI" true ⟨2⟩ ⟨3⟩).2 =
      [ClientCall.createOrder "ETH-DAI"
        (if true then Client.SIDE_SELL else Client.SIDE_BUY) ⟨4, ⟨2⟩⟩ ⟨7, ⟨3⟩⟩] :=
  ⟨by decide, rfl, rfl,
   (C1_place_order_precision okClient "ETH-DAI" "ETH" "DAI" true ⟨2⟩ ⟨3⟩ 7 4
      (by decide) rfl rfl).1⟩

/-- C6: for every `place_order` call whose pair splits into a base and a
quote asset of which at least one is absent from the precision table, the
call fails with the unknown-asset error (the `KeyError` of the precision
lookup) and no remote call is made. -/
theorem C6_place_order_unknown_asset (client : Client) (pair base quote : String)
    (is_sell : Bool) (price amount : Wad)
    (hsplit : pySplitOnDash pair = [base, quote])
    (h : KucoinApi.get_precision base = none ∨ KucoinApi.get_precision quote = none) :
    (∃ coin, (KucoinApi.place_order client pair is_sell price amount).1 =
        Except.error (AdapterError.keyError coin) ∧
        KucoinApi.get_precision coin = none) ∧
    (KucoinApi.place_order client pair is_sell price amount).2 = [] := by
  unfold KucoinApi.place_order
  rw [hsplit]
  simp only [List.getElem?_cons_zero, List.getElem?_cons_succ]
  cases hquote : KucoinApi.get_precision quote with
  | none => exact ⟨⟨quote, rfl, hquote⟩, rfl⟩
  | some pq =>
    cases h with
    | inr h' => exact absurd hquote (by simp [h'])
    | inl hbase => exact ⟨⟨base, by simp [hbase], hbase⟩, by simp [hbase]⟩

theorem C6_place_order_unknown_asset_witness :
    pySplitOnDash "FOO-DAI" = ["FOO", "DAI"] ∧
    KucoinApi.get_precision "FOO" = none ∧
    (∃ coin, (KucoinApi.place_order okClient "FOO-DAI" true ⟨2⟩ ⟨3⟩).1 =
        Except.error (AdapterError.keyError coin) ∧
        KucoinApi.get_precision coin = none) ∧
    (KucoinApi.place_order okClient "FOO-DAI" true ⟨2⟩ ⟨3⟩).2 = [] :=
  ⟨by decide, by decide,
   C6_place_order_unknown_asset okClient "FOO-DAI" "FOO" "DAI" true ⟨2⟩ ⟨3⟩
     (by decide) (Or.inl (by decide))⟩

/-- C7: for every successful active-orders response, `get_orders` returns
a list whose length is the sum of the sell list's and the buy list's
lengths, whose prefix of the sell list's length is the sell list mapped
in order (every element with side sell) and whose remainder is the buy
list mapped in order (every element with side buy). -/
theorem C7_get_orders_concatenation (client : Client) (pair : String)
    (resp : ActiveOrdersResponse)
    (h : client.get_active_orders pair = Except.ok resp) :
    ∃ result, (KucoinApi.get_orders client pair).1 = Except.ok result ∧
      result.length = resp.sell.length + resp.buy.length ∧
      result.take resp.sell.length =
        resp.sell.map (fun item => Order.from_list item pair true) ∧
      result.drop resp.sell.length =
        resp.buy.map (fun item => Order.from_list item pair false) ∧
      (∀ o ∈ result.take resp.sell.length, o.is_sell = true) ∧
      (∀ o ∈ result.drop resp.sell.length, o.is_sell = false) := by
  refine ⟨(resp.sell.map (fun item => Order.from_list item pair true)) ++
          (resp.buy.map (fun item => Order.from_list item pair false)),
          by simp [KucoinApi.get_orders, h], by simp, ?_, ?_, ?_, ?_⟩
  · rw [List.take_left' (by simp)]
  · rw [List.drop_left' (by simp)]
  · rw [List.take_left' (by simp)]
    intro o ho
    rcases List.mem_map.mp ho with ⟨item, _, hitem⟩
    simp [← hitem, Order.from_list]
  · rw [List.drop_left' (by simp)]
    intro o ho
    rcases List.mem_map.mp ho with ⟨item, _, hitem⟩
    simp [← hitem, Order.from_list]

theorem C7_get_orders_concatenation_witness :
    ∃ result, (KucoinApi.get_orders twoThreeClient "ETH-DAI").1 = Except.ok result ∧
      result.length = 2 + 3 ∧
      result.take 2 =
        [⟨1544564526000, "SELL", 25, 3, 1, "s1"⟩,
         ⟨(1544564527000 : Int), "SELL", 26, 4, 1, "s2"⟩].map
          (fun item => Order.from_list item "ETH-DAI" true) ∧
      result.drop 2 =
        [⟨1544564528000, "BUY", 24, 5, 1, "b1"⟩,
         ⟨1544564529000, "BUY", 23, 6, 1, "b2"⟩,
         ⟨(1544564530000 : Int), "BUY", 22, 7, 1, "b3"⟩].map
          (fun item => Order.from_list item "ETH-DAI" false) ∧
      (∀ o ∈ result.take 2, o.is_sell = true) ∧
      (∀ o ∈ result.drop 2, o.is_sell = false) :=
  C7_get_orders_concatenation twoThreeClient "ETH-DAI"
    ⟨[⟨1544564526000, "SELL", 25, 3, 1, "s1"⟩, ⟨1544564527000, "SELL", 26, 4, 1, "s2"⟩],
     [⟨1544564528000, "BUY", 24, 5, 1, "b1"⟩, ⟨1544564529000, "BUY", 23, 6, 1, "b2"⟩,
      ⟨1544564530000, "BUY", 22, 7, 1, "b3"⟩]⟩ rfl

/-- C8 counterexample: at a concrete construction (the base URL and
timeout of the repository's manual test), it is false that all four
construction parameters are among the arguments passed to the external
client constructor — the API base URL is not passed (and neither is the
timeout). -/
theorem C8_counterexample_ctor_args :
    ¬ (CtorArg.str "https://api.kucoin.com" ∈
         KucoinApi.clientCtorArgs "https://api.kucoin.com" "k" "s" 9 ∧
       CtorArg.str "k" ∈ KucoinApi.clientCtorArgs "https://api.kucoin.com" "k" "s" 9 ∧
       CtorArg.str "s" ∈ KucoinApi.clientCtorArgs "https://api.kucoin.com" "k" "s" 9 ∧
       CtorArg.num 9 ∈ KucoinApi.clientCtorArgs "https://api.kucoin.com" "k" "s" 9) := by
  intro h
  exact absurd h.1 (by decide)

/-- C8 (amended): the adapter constructor stores all four parameters on
the instance, but passes only the API key and the secret key to the
external client constructor; the API base URL and the timeout are not
forwarded. -/
theorem C8_ctor_args_passed (api_server api_key secret_key : String)
    (timeout : Rat) :
    (KucoinApi.mk_state api_server api_key secret_key timeout).clientArgs =
      [CtorArg.str api_key, CtorArg.str secret_key] ∧
    (KucoinApi.mk_state api_server api_key secret_key timeout).api_server = api_server ∧
    (KucoinApi.mk_state api_server api_key secret_key timeout).api_key = api_key ∧
    (KucoinApi.mk_state api_server api_key secret_key timeout).secret_key = secret_key ∧
    (KucoinApi.mk_state api_server api_key secret_key timeout).timeout = timeout ∧
    (∀ s, CtorArg.str s ∈
        (KucoinApi.mk_state api_server api_key secret_key timeout).clientArgs →
      s = api_key ∨ s = secret_key) ∧
    (∀ q, ¬ CtorArg.num q ∈
        (KucoinApi.mk_state api_server api_key secret_key timeout).clientArgs) := by
  refine ⟨rfl, rfl, rfl, rfl, rfl, ?_, ?_⟩
  · intro s hs
    simp [KucoinApi.mk_state, KucoinApi.clientCtorArgs] at hs
    exact hs
  · intro q hq
    simp [KucoinApi.mk_state, KucoinApi.clientCtorArgs] at hq

theorem C8_ctor_args_passed_witness :
    (KucoinApi.mk_state "https://api.kucoin.com" "k" "s" 9).clientArgs =
      [CtorArg.str "k", CtorArg.str "s"] ∧
    (KucoinApi.mk_state "https://api.kucoin.com" "k" "s" 9).api_server =
      "https://api.kucoin.com" ∧
    (KucoinApi.mk_state "https://api.kucoin.com" "k" "s" 9).api_key = "k" ∧
    (KucoinApi.mk_state "https://api.kucoin.com" "k" "s" 9).secret_key = "s" ∧
    (KucoinApi.mk_state "https://api.kucoin.com" "k" "s" 9).timeout = 9 ∧
    (∀ s, CtorArg.str s ∈
        (KucoinApi.mk_state "https://api.kucoin.com" "k" "s" 9).clientArgs →
      s = "k" ∨ s = "s") ∧
    (∀ q, ¬ CtorArg.num q ∈
        (KucoinApi.mk_state "https://api.kucoin.com" "k" "s" 9).clientArgs) :=
  C8_ctor_args_passed "https://api.kucoin.com" "k" "s" 9

/-- C9 counterexample: at a concrete client, `get_orders` called with the
empty string as pair does not fail (the result is a success, so no
contract-violation error is raised), and the remote call is performed
with the empty pair. -/
theorem C9_counterexample_empty_pair :
    (¬ ∃ e, (KucoinApi.get_orders okClient "").1 = Except.error e) ∧
    (KucoinApi.get_orders okClient "").2 = [ClientCall.getActiveOrders ""] := by
  constructor
  · rintro ⟨e, h⟩
    simp [KucoinApi.get_orders, okClient] at h
  · rfl

/-- C9 (amended): `get_orders` called with the empty string as pair does
not fail with a precondition error; the empty pair is forwarded unchanged
to the external client, and a successful response is mapped as usual. -/
theorem C9_empty_pair_forwarded (client : Client) :
    (KucoinApi.get_orders client "").2 = [ClientCall.getActiveOrders ""] ∧
    (∀ resp, client.get_active_orders "" = Except.ok resp →
      (KucoinApi.get_orders client "").1 = Except.ok
        ((resp.sell.map (fun item => Order.from_list item "" true)) ++
         (resp.buy.map (fun item => Order.from_list item "" false)))) := by
  constructor
  · unfold KucoinApi.get_orders
    cases client.get_active_orders "" <;> rfl
  · intro resp h
    simp [KucoinApi.get_orders, h]

theorem C9_empty_pair_forwarded_witness :
    (KucoinApi.get_orders okClient "").2 = [ClientCall.getActiveOrders ""] ∧
    (KucoinApi.get_orders okClient "").1 = Except.ok [] :=
  ⟨(C9_empty_pair_forwarded okClient).1,
   (C9_empty_pair_forwarded okClient).2 ⟨[], []⟩ rfl⟩
